import Mathlib

/-!
A verification development for `lens_calibrate.py`: shallow embeddings of the
pure cores of the script's functions, together with theorems about them.

Python strings are modelled as `List Char` (the script only handles ASCII
data in the places embedded here); Python floats appearing in the embedded
fragments are modelled exactly — as scaled decimal integers with ℚ as the
reference semantics, extended with infinities where needed — and Python
exceptions are modelled with `Except String`.
-/

namespace LensCalibrate

instance {ε α : Type _} [DecidableEq ε] [DecidableEq α] : DecidableEq (Except ε α) := fun a b =>
  match a, b with
  | .ok x, .ok y =>
      if h : x = y then isTrue (congrArg Except.ok h)
      else isFalse (fun hc => h (Except.ok.inj hc))
  | .error x, .error y =>
      if h : x = y then isTrue (congrArg Except.error h)
      else isFalse (fun hc => h (Except.error.inj hc))
  | .ok _, .error _ => isFalse (fun hc => Except.noConfusion hc)
  | .error _, .ok _ => isFalse (fun hc => Except.noConfusion hc)

/-! ### Python string primitives -/

/-- The six ASCII whitespace characters recognised by Python's `str.strip`
and by the `\s` class of the `re` module in bytes mode. -/
def isPySpace (c : Char) : Bool :=
  c = ' ' || c = '\t' || c = '\n' || c = '\r' || c = '\x0b' || c = '\x0c'

/-- Python `s.split(sep)` for a one-character separator: splitting the empty
string yields `[""]`, and `n` separators yield `n+1` fields. -/
def pySplit (sep : Char) : List Char → List (List Char)
  | [] => [[]]
  | c :: rest =>
    let r := pySplit sep rest
    if c = sep then [] :: r
    else
      match r with
      | [] => [[c]]
      | g :: gs => (c :: g) :: gs

/-- Python `str.strip()` restricted to ASCII whitespace. -/
def pyStrip (s : List Char) : List Char :=
  ((s.dropWhile isPySpace).reverse.dropWhile isPySpace).reverse

/-! ### C1 — distortion emission in `run_generate_xml` -/

/-- One `<distortion>` XML element as written by `run_generate_xml`. -/
inductive DistortionXml where
  | poly3 (focal k1 : String)
  | ptlens (focal a b c : String)
  deriving DecidableEq, Repr

/-- Embedding of the distortion-emission branch of `run_generate_xml`
(`lens_calibrate.py:1495-1505`) for one config entry:

`data = list(map(str.strip, lenses[m]['distortion'][f].split(',')))` then
`if data[1] is None:` emit `poly3` with `k1=data[0]` `else:` emit `ptlens`
with `a=data[0] b=data[1] c=data[2]`.

Python list indexing raises `IndexError` when the index is out of range, and
the elements produced by `str.split` are strings, never `None`, so the test
`data[1] is None` is `False` whenever it evaluates at all. -/
def run_generate_xml_distortion (focal_length entry : String) : Except String DistortionXml :=
  let data := (pySplit ',' entry.data).map pyStrip
  match data.get? 1 with
  | none => .error "IndexError: list index out of range"
  | some d1 =>
    if False then
      -- the "data[1] is None" branch: unreachable, a str is never None
      .ok (.poly3 focal_length ⟨data.headD []⟩)
    else
      match data.get? 2 with
      | none => .error "IndexError: list index out of range"
      | some d2 => .ok (.ptlens focal_length ⟨data.headD []⟩ ⟨d1⟩ ⟨d2⟩)

example : run_generate_xml_distortion "7.0" "0.0, 0.0, 0.0" =
    .ok (.ptlens "7.0" "0.0" "0.0" "0.0") := by decide

example : run_generate_xml_distortion "7.0" "0.0" =
    .error "IndexError: list index out of range" := by decide

/-! ### Python `float()`

Finite values parsed from decimal strings are represented exactly, as a
scaled integer `m · 10^(-s)` (the type `Dec`). Comparisons on `Dec` are by
integer cross-multiplication, so they evaluate on concrete inputs; the lemma
`Dec.le_iff_toRat` identifies them with the rational order. -/

/-- An exact decimal value `m · 10^(-s)`. -/
structure Dec where
  m : ℤ
  s : ℕ
  deriving DecidableEq, Repr

/-- Ten to a natural power, in ℤ (structural, so concrete inputs evaluate). -/
def tenPowZ : ℕ → ℤ
  | 0 => 1
  | n + 1 => 10 * tenPowZ n

/-- Ten to a natural power, in ℕ. -/
def tenPowN : ℕ → ℕ
  | 0 => 1
  | n + 1 => 10 * tenPowN n

/-- Ten to a natural power, in ℚ. -/
def pow10 : ℕ → ℚ
  | 0 => 1
  | n + 1 => 10 * pow10 n

/-- The rational value denoted by a `Dec`. -/
def Dec.toRat (d : Dec) : ℚ := (d.m : ℚ) / pow10 d.s

/-- Order on `Dec` by integer cross-multiplication. -/
def Dec.le (a b : Dec) : Prop := a.m * tenPowZ b.s ≤ b.m * tenPowZ a.s

instance : DecidableRel Dec.le := fun a b =>
  inferInstanceAs (Decidable (a.m * tenPowZ b.s ≤ b.m * tenPowZ a.s))

theorem pow10_pos (n : ℕ) : 0 < pow10 n := by
  induction n with
  | zero => norm_num [pow10]
  | succ n ih => rw [pow10]; positivity

theorem tenPowZ_cast (n : ℕ) : ((tenPowZ n : ℤ) : ℚ) = pow10 n := by
  induction n with
  | zero => rfl
  | succ n ih => rw [tenPowZ, pow10]; push_cast; rw [ih]

/-- The cross-multiplication order on `Dec` is the rational order. -/
theorem Dec.le_iff_toRat (a b : Dec) : Dec.le a b ↔ a.toRat ≤ b.toRat := by
  unfold Dec.le Dec.toRat
  rw [div_le_div_iff₀ (pow10_pos _) (pow10_pos _), ← tenPowZ_cast, ← tenPowZ_cast]
  exact_mod_cast Iff.rfl

/-- The value of a Python float as far as this script observes it:
an exact decimal, an infinity, or NaN. -/
inductive PyFloat where
  | finite (d : Dec)
  | pinf
  | ninf
  | nan
  deriving DecidableEq, Repr

/-- Negation of a `PyFloat`, for a leading `-` sign. -/
def PyFloat.neg : PyFloat → PyFloat
  | .finite d => .finite ⟨-d.m, d.s⟩
  | .pinf => .ninf
  | .ninf => .pinf
  | .nan => .nan

/-- ASCII lower-casing, as Python's float parser applies to `inf`/`nan`/`e`. -/
def toLowerAscii (c : Char) : Char :=
  if 'A' ≤ c && c ≤ 'Z' then Char.ofNat (c.toNat + 32) else c

/-- Test for an ASCII decimal digit. -/
def isDigitChar (c : Char) : Bool := '0' ≤ c && c ≤ '9'

/-- Read a maximal run of ASCII digits, returning the accumulated value, the
number of digits read, and the rest of the input. -/
def readDigits : List Char → ℕ → ℕ → ℕ × ℕ × List Char
  | [], acc, n => (acc, n, [])
  | c :: cs, acc, n =>
    if isDigitChar c then readDigits cs (acc * 10 + (c.toNat - '0'.toNat)) (n + 1)
    else (acc, n, c :: cs)

/-- Read an optional `+`/`-` sign, returning `1` or `-1` and the rest. -/
def readSign : List Char → ℤ × List Char
  | '+' :: cs => (1, cs)
  | '-' :: cs => (-1, cs)
  | cs => (1, cs)

/-- Parse the optional exponent part `e[sign]digits` of a Python float
literal; the whole rest of the input must be consumed. -/
def parseExpPart (mant : Dec) : List Char → Option Dec
  | [] => some mant
  | e :: r2 =>
    if toLowerAscii e = 'e' then
      let (sgn, r3) := readSign r2
      let (ev, evn, r4) := readDigits r3 0 0
      if evn = 0 || !r4.isEmpty then none
      else if sgn ≥ 0 then some ⟨mant.m * tenPowZ ev, mant.s⟩
      else some ⟨mant.m, mant.s + ev⟩
    else none

/-- Parse the numeric body `digits[.digits][exp]` or `.digits[exp]` of a
Python float literal (at least one mantissa digit required). -/
def parseNumericBody (s : List Char) : Option Dec :=
  let (ip, ipn, r1) := readDigits s 0 0
  match r1 with
  | '.' :: r2 =>
    let (fp, fpn, r3) := readDigits r2 0 0
    if ipn = 0 && fpn = 0 then none
    else parseExpPart ⟨((ip * tenPowN fpn + fp : ℕ) : ℤ), fpn⟩ r3
  | _ => if ipn = 0 then none else parseExpPart ⟨(ip : ℤ), 0⟩ r1

/-- The body of a Python float literal after the optional sign, already
lower-cased: `inf`, `infinity`, `nan`, or a numeric literal. -/
def pyFloatBody (s : List Char) : Option PyFloat :=
  if s = ['i', 'n', 'f'] || s = ['i', 'n', 'f', 'i', 'n', 'i', 't', 'y'] then some .pinf
  else if s = ['n', 'a', 'n'] then some .nan
  else (parseNumericBody s).map PyFloat.finite

/-- CPython `float(s)` on the ASCII strings this script passes to it:
surrounding whitespace is stripped, an optional sign is read, and the body is
`inf`/`infinity`/`nan` (case-insensitive) or a decimal literal with optional
fraction and exponent. (`None` models `ValueError`. Digit-group underscores,
which the script never produces, are not modelled.) -/
def pyFloat : List Char → Option PyFloat := fun s =>
  let t := (pyStrip s).map toLowerAscii
  match t with
  | '+' :: r => pyFloatBody r
  | '-' :: r => (pyFloatBody r).map PyFloat.neg
  | r => pyFloatBody r

example : pyFloat " 12.25 ".data = some (.finite ⟨1225, 2⟩) := by decide
example : pyFloat "inf".data = some .pinf := by decide
example : pyFloat "-Infinity".data = some .ninf := by decide
example : pyFloat "1e3".data = some (.finite ⟨1000, 0⟩) := by decide
example : pyFloat "exported".data = none := by decide
example : pyFloat "".data = none := by decide
example : (⟨1225, 2⟩ : Dec).toRat = 49 / 4 := by norm_num [Dec.toRat, pow10]

/-! ### Numeric sorting of string keys (`sorted(keys, key=float)`) -/

/-- The comparison key used by the emitter's `sorted(keys, key=float)`
calls: a rank (0 for `-inf`, 1 for finite, 2 for `inf`) and an exact decimal.
All keys this program produces are decimal strings or `"inf"`. (A key that
Python's `float` rejects would raise `ValueError` inside `sorted`; such keys
are never produced, and the fallback `(1, 0)` here is never exercised by the
theorems below. `-inf`/`nan` keys do not occur either; Python comparisons
with NaN are not order-consistent, which no total model can reproduce.) -/
def pyKey (str : String) : ℕ × Dec :=
  match pyFloat str.data with
  | some (.finite d) => (1, d)
  | some .pinf => (2, ⟨0, 0⟩)
  | some .ninf => (0, ⟨0, 0⟩)
  | some .nan => (1, ⟨0, 0⟩)
  | none => (1, ⟨0, 0⟩)

/-- The ordering `sorted(keys, key=float)` sorts by. -/
def floatLe (a b : String) : Prop :=
  (pyKey a).1 < (pyKey b).1 ∨ ((pyKey a).1 = (pyKey b).1 ∧ Dec.le (pyKey a).2 (pyKey b).2)

instance floatLe.decRel : DecidableRel floatLe := fun _ _ =>
  inferInstanceAs (Decidable (_ ∨ _))

instance floatLe.total : IsTotal String floatLe := by
  constructor
  intro a b
  rcases Nat.lt_trichotomy (pyKey a).1 (pyKey b).1 with h | h | h
  · exact Or.inl (Or.inl h)
  · rcases le_total ((pyKey a).2.toRat) ((pyKey b).2.toRat) with h2 | h2
    · exact Or.inl (Or.inr ⟨h, (Dec.le_iff_toRat _ _).mpr h2⟩)
    · exact Or.inr (Or.inr ⟨h.symm, (Dec.le_iff_toRat _ _).mpr h2⟩)
  · exact Or.inr (Or.inl h)

instance floatLe.trans : IsTrans String floatLe := by
  constructor
  intro a b c hab hbc
  rcases hab with h1 | ⟨e1, d1⟩
  · rcases hbc with h2 | ⟨e2, _⟩
    · exact Or.inl (h1.trans h2)
    · exact Or.inl (e2 ▸ h1)
  · rcases hbc with h2 | ⟨e2, d2⟩
    · exact Or.inl (e1 ▸ h2)
    · exact Or.inr ⟨e1.trans e2,
        (Dec.le_iff_toRat _ _).mpr
          (((Dec.le_iff_toRat _ _).mp d1).trans ((Dec.le_iff_toRat _ _).mp d2))⟩

/-- Embedding of `sorted(keys, key=float)`: a stable sort by the float value
of each key (Python's sort is stable, as is insertion sort). -/
def sortedByFloat (l : List String) : List String := List.insertionSort floatLe l

example : sortedByFloat ["100.0", "14.0", "7.0"] = ["7.0", "14.0", "100.0"] := by decide
example : sortedByFloat ["2000", "inf"] = ["2000", "inf"] := by decide

/-! ### C2 / C8 — vignetting emission in `run_generate_xml`

The vignetting tree built by the aggregator is, per lens,
`map<focal, map<aperture, map<distance, {k1,k2,k3}>>>` with string keys.
Python dicts are modelled as association lists with (by construction)
distinct keys; iteration over `sorted(keys, key=float)` is modelled by
`sortedByFloat` over the key list. -/

/-- The fitted coefficients stored in a `.vig` artifact. -/
structure VigCoeffs where
  k1 : String
  k2 : String
  k3 : String
  deriving DecidableEq, Repr

/-- One `<vignetting>` XML element as written by `run_generate_xml`. -/
structure VigXml where
  focal : String
  aperture : String
  distance : String
  k1 : String
  k2 : String
  k3 : String
  deriving DecidableEq, Repr

/-- The distance map of one (focal length, aperture) cell. -/
abbrev DistMap : Type := List (String × VigCoeffs)

/-- The aperture map of one focal length. -/
abbrev ApMap : Type := List (String × DistMap)

/-- The vignetting tree of one lens. -/
abbrev VigTree : Type := List (String × ApMap)

/-- Embedding of the innermost distance loop of `run_generate_xml`
(`lens_calibrate.py:1538-1555`): iterate distances sorted by float; look the
data up under the original key; rewrite the key `'inf'` to `'1000'`; if this
aperture has exactly one distance key and the rewritten key is `'1000'`,
emit at distances `'10'` and `'1000'`, else emit once. -/
def emitVigDistances (focal aperture : String) (dists : DistMap) : List VigXml :=
  (sortedByFloat (dists.map Prod.fst)).flatMap (fun distance0 =>
    let data := (dists.lookup distance0).getD ⟨"", "", ""⟩
    let distance := if distance0 = "inf" then "1000" else distance0
    let ds := if dists.length = 1 ∧ distance = "1000" then ["10", "1000"] else [distance]
    ds.map (fun d => ⟨focal, aperture, d, data.k1, data.k2, data.k3⟩))

/-- Embedding of the aperture loop of `run_generate_xml`
(`lens_calibrate.py:1535-1537`): iterate apertures sorted by float. -/
def emitVigApertures (focal : String) (aps : ApMap) : List VigXml :=
  (sortedByFloat (aps.map Prod.fst)).flatMap (fun aperture =>
    emitVigDistances focal aperture ((aps.lookup aperture).getD []))

/-- Embedding of the vignetting block of `run_generate_xml`
(`lens_calibrate.py:1533-1555`): iterate focal lengths sorted by float. -/
def run_generate_xml_vignetting (vig : VigTree) : List VigXml :=
  (sortedByFloat (vig.map Prod.fst)).flatMap (fun focal =>
    emitVigApertures focal ((vig.lookup focal).getD []))

example :
    run_generate_xml_vignetting [("50.0", [("4.0", [("inf", ⟨"0.1", "0.2", "0.3"⟩)])])] =
      [⟨"50.0", "4.0", "10", "0.1", "0.2", "0.3"⟩,
       ⟨"50.0", "4.0", "1000", "0.1", "0.2", "0.3"⟩] := by decide

example :
    (run_generate_xml_vignetting
        [("50.0", [("4.0", [("2000", ⟨"0.1", "0.2", "0.3"⟩),
                            ("inf", ⟨"0.4", "0.5", "0.6"⟩)])])]).map VigXml.distance =
      ["2000", "1000"] := by decide

/-- Every element of `emitVigApertures focal aps` carries that focal length. -/
theorem focal_of_mem_emitVigApertures {focal : String} {aps : ApMap} {e : VigXml}
    (he : e ∈ emitVigApertures focal aps) : e.focal = focal := by
  simp only [emitVigApertures, List.mem_flatMap] at he
  obtain ⟨ap, _, he⟩ := he
  simp only [emitVigDistances, List.mem_flatMap] at he
  obtain ⟨d0, _, he⟩ := he
  simp only [List.mem_map] at he
  obtain ⟨d, _, rfl⟩ := he
  rfl

/-- Every element of `emitVigDistances focal ap dists` carries that aperture. -/
theorem aperture_of_mem_emitVigDistances {focal ap : String} {dists : DistMap} {e : VigXml}
    (he : e ∈ emitVigDistances focal ap dists) : e.aperture = ap := by
  simp only [emitVigDistances, List.mem_flatMap] at he
  obtain ⟨d0, _, he⟩ := he
  simp only [List.mem_map] at he
  obtain ⟨d, _, rfl⟩ := he
  rfl

theorem floatLe_refl (a : String) : floatLe a a :=
  Or.inr ⟨rfl, le_refl _⟩

/-- A list whose elements are all equal to `c` is an `R`-chain when `R c c`. -/
theorem chain'_of_forall_eq {α : Type _} {R : α → α → Prop} {c : α} :
    ∀ {l : List α}, R c c → (∀ x ∈ l, x = c) → List.Chain' R l
  | [], _, _ => List.chain'_nil
  | [_], _, _ => List.chain'_singleton _
  | a :: b :: t, hrefl, hall => by
    rw [List.chain'_cons]
    refine ⟨?_, chain'_of_forall_eq hrefl (fun x hx => hall x (List.mem_cons_of_mem a hx))⟩
    rw [hall a (List.mem_cons_self a (b :: t)),
      hall b (List.mem_cons_of_mem a (List.mem_cons_self b t))]
    exact hrefl

/-- Concatenating segments of constant `g`-value along a `floatLe`-sorted key
list yields a `floatLe`-chain of `g`-values. -/
theorem chain'_map_flatMap_sorted {α : Type _} {f : String → List α} {g : α → String} :
    ∀ {ks : List String}, List.Sorted floatLe ks → (∀ k, ∀ e ∈ f k, g e = k) →
      List.Chain' floatLe ((ks.flatMap f).map g)
  | [], _, _ => by simp
  | k :: t, hs, hconst => by
    rw [List.flatMap_cons, List.map_append, List.chain'_append]
    refine ⟨?_, chain'_map_flatMap_sorted hs.of_cons hconst, ?_⟩
    · exact chain'_of_forall_eq (floatLe_refl k) (fun x hx => by
        obtain ⟨e, he, rfl⟩ := List.mem_map.mp hx
        exact hconst k e he)
    · intro x hx y hy
      obtain ⟨e, he, rfl⟩ := List.mem_map.mp (List.mem_of_mem_getLast? hx)
      obtain ⟨e2, he2, rfl⟩ := List.mem_map.mp (List.mem_of_mem_head? hy)
      obtain ⟨k2, hk2, he2⟩ := List.mem_flatMap.mp he2
      rw [hconst k e he, hconst k2 e2 he2]
      exact List.rel_of_sorted_cons hs k2 hk2

/-- C1 (code_bug evaluation): on a single-value distortion entry such as
`"0.0"` the emitter raises `IndexError` while evaluating the guard
`data[1] is None`, instead of emitting the `model="poly3"` element the
claim describes; a three-value entry `"0.0, 0.0, 0.0"` emits
`model="ptlens"` with `a="0.0" b="0.0" c="0.0"`; and no input whatsoever
makes the emitter produce a `poly3` element, i.e. the `poly3` branch is
dead code. -/
theorem run_generate_xml_distortion_single_value_raises :
    run_generate_xml_distortion "7.0" "0.0" =
      .error "IndexError: list index out of range" ∧
    run_generate_xml_distortion "7.0" "0.0, 0.0, 0.0" =
      .ok (.ptlens "7.0" "0.0" "0.0" "0.0") ∧
    ∀ focal entry f k1, run_generate_xml_distortion focal entry ≠ .ok (.poly3 f k1) := by
  refine ⟨by decide, by decide, ?_⟩
  intro focal entry f k1 h
  simp only [run_generate_xml_distortion] at h
  split at h
  · exact Except.noConfusion h
  · rw [if_neg (fun hf => hf)] at h
    split at h
    · exact Except.noConfusion h
    · exact DistortionXml.noConfusion (Except.ok.inj h)

/-- C2: at emission every `<vignetting>` element's distance is `"10"`,
`"1000"`, or a distance key other than `"inf"` — so the key `"inf"` is
always rewritten and never emitted; and when an aperture (in particular, a
focal length with a single aperture) has exactly one recorded distance
whose key serializes to `"1000"` (the key is `"inf"`, or literally
`"1000"`), emission produces exactly two elements for it, at distances
`"10"` and `"1000"`, both carrying the entry's k1, k2 and k3. -/
theorem run_generate_xml_vignetting_inf_rule :
    (∀ focal aperture dists, ∀ e ∈ emitVigDistances focal aperture dists,
      e.distance = "10" ∨ e.distance = "1000" ∨
        (e.distance ∈ dists.map Prod.fst ∧ e.distance ≠ "inf")) ∧
    (∀ focal aperture d c, (if d = "inf" then "1000" else d) = "1000" →
      emitVigDistances focal aperture [(d, c)] =
        [⟨focal, aperture, "10", c.k1, c.k2, c.k3⟩,
         ⟨focal, aperture, "1000", c.k1, c.k2, c.k3⟩]) ∧
    (∀ focal aperture d c, (if d = "inf" then "1000" else d) = "1000" →
      run_generate_xml_vignetting [(focal, [(aperture, [(d, c)])])] =
        [⟨focal, aperture, "10", c.k1, c.k2, c.k3⟩,
         ⟨focal, aperture, "1000", c.k1, c.k2, c.k3⟩]) := by
  refine ⟨?_, ?_, ?_⟩
  · intro focal aperture dists e he
    simp only [emitVigDistances, List.mem_flatMap] at he
    obtain ⟨k, hk, he⟩ := he
    simp only [List.mem_map] at he
    obtain ⟨d, hd, rfl⟩ := he
    show d = "10" ∨ d = "1000" ∨ (d ∈ dists.map Prod.fst ∧ d ≠ "inf")
    set dist := if k = "inf" then "1000" else k with hdist
    split at hd
    · simp only [List.mem_cons, List.not_mem_nil, or_false] at hd
      rcases hd with rfl | rfl
      · exact Or.inl rfl
      · exact Or.inr (Or.inl rfl)
    · simp only [List.mem_cons, List.not_mem_nil, or_false] at hd
      subst hd
      by_cases hinf : k = "inf"
      · rw [hdist, if_pos hinf]
        exact Or.inr (Or.inl rfl)
      · rw [hdist, if_neg hinf]
        exact Or.inr (Or.inr ⟨(List.mem_insertionSort floatLe).mp hk, hinf⟩)
  · intro focal aperture d c hser
    by_cases hd : d = "inf"
    · subst hd
      simp [emitVigDistances, sortedByFloat, List.insertionSort,
        List.orderedInsert, List.lookup]
    · rw [if_neg hd] at hser
      subst hser
      simp [emitVigDistances, sortedByFloat, List.insertionSort,
        List.orderedInsert, List.lookup]
  · intro focal aperture d c hser
    by_cases hd : d = "inf"
    · subst hd
      simp [run_generate_xml_vignetting, emitVigApertures, emitVigDistances,
        sortedByFloat, List.insertionSort, List.orderedInsert, List.lookup]
    · rw [if_neg hd] at hser
      subst hser
      simp [run_generate_xml_vignetting, emitVigApertures, emitVigDistances,
        sortedByFloat, List.insertionSort, List.orderedInsert, List.lookup]

theorem run_generate_xml_vignetting_inf_rule_witness :
    run_generate_xml_vignetting [("50.0", [("4.0", [("inf", ⟨"0.1", "0.2", "0.3"⟩)])])] =
      [⟨"50.0", "4.0", "10", "0.1", "0.2", "0.3"⟩,
       ⟨"50.0", "4.0", "1000", "0.1", "0.2", "0.3"⟩] :=
  run_generate_xml_vignetting_inf_rule.2.2 "50.0" "4.0" "inf" ⟨"0.1", "0.2", "0.3"⟩
    (by decide)

/-- A vignetting tree with a finite distance greater than 1000 next to an
infinity entry. -/
def vigTreeDistCex : VigTree :=
  [("50.0", [("4.0", [("2000", ⟨"0.1", "0.2", "0.3"⟩),
                      ("inf", ⟨"0.4", "0.5", "0.6"⟩)])])]

/-- C8 counterexample: the emitted `<vignetting>` distance values are not
always numerically ascending. The keys `{"2000", "inf"}` are iterated in
order 2000, inf, but `"inf"` is rewritten to `"1000"` only after sorting,
so the emitted distance sequence is 2000, 1000 — numerically descending:
the two strings parse to the float values 2000 and 1000 and 2000 ≤ 1000
fails, both in the sort order and as rationals. -/
theorem run_generate_xml_distance_order_cex :
    (run_generate_xml_vignetting vigTreeDistCex).map VigXml.distance = ["2000", "1000"] ∧
    pyFloat "2000".data = some (.finite ⟨2000, 0⟩) ∧
    pyFloat "1000".data = some (.finite ⟨1000, 0⟩) ∧
    ¬ floatLe "2000" "1000" ∧
    ¬ (⟨2000, 0⟩ : Dec).toRat ≤ (⟨1000, 0⟩ : Dec).toRat := by
  refine ⟨by decide, by decide, by decide, by decide, ?_⟩
  norm_num [Dec.toRat, pow10]

/-- C8 amended: every key level of the emitter is iterated in numerically
ascending (not lexical) order: `sorted(keys, key=float)` returns a
permutation of the keys sorted by their float value, with the string set
`{"7.0","14.0","100.0"}` yielding 7.0, 14.0, 100.0; on finite decimal keys
the sorting order coincides with the rational order, and `"inf"` sorts last;
the emitted focal-length sequence is numerically nondecreasing, and within
one focal length the emitted aperture sequence is numerically nondecreasing.
(The emitted distance values can break ascending order, per the
counterexample: `"inf"` is rewritten to `"1000"` after sorting.) -/
theorem run_generate_xml_sorted_numeric :
    (∀ l : List String, List.Sorted floatLe (sortedByFloat l) ∧ (sortedByFloat l).Perm l) ∧
    sortedByFloat ["100.0", "14.0", "7.0"] = ["7.0", "14.0", "100.0"] ∧
    (∀ a b : String, ∀ da db : Dec, pyFloat a.data = some (.finite da) →
      pyFloat b.data = some (.finite db) → (floatLe a b ↔ da.toRat ≤ db.toRat)) ∧
    (∀ a : String, floatLe a "inf") ∧
    (∀ vig : VigTree,
      List.Chain' floatLe ((run_generate_xml_vignetting vig).map VigXml.focal)) ∧
    (∀ focal : String, ∀ aps : ApMap,
      List.Chain' floatLe ((emitVigApertures focal aps).map VigXml.aperture)) := by
  refine ⟨?_, by decide, ?_, ?_, ?_, ?_⟩
  · exact fun l => ⟨List.sorted_insertionSort floatLe l, List.perm_insertionSort floatLe l⟩
  · intro a b da db ha hb
    unfold floatLe pyKey
    rw [ha, hb]
    simp only [lt_self_iff_false, false_or, true_and]
    exact Dec.le_iff_toRat da db
  · intro a
    have h2 : pyKey "inf" = (2, ⟨0, 0⟩) := by decide
    have key2 : (pyKey a).1 < 2 ∨ pyKey a = (2, ⟨0, 0⟩) := by
      unfold pyKey
      rcases pyFloat a.data with _ | f
      · exact Or.inl one_lt_two
      · rcases f with d | _ | _ | _
        · exact Or.inl one_lt_two
        · exact Or.inr rfl
        · exact Or.inl zero_lt_two
        · exact Or.inl one_lt_two
    unfold floatLe
    rw [h2]
    rcases key2 with h | h
    · exact Or.inl h
    · rw [h]
      exact Or.inr ⟨rfl, le_refl _⟩
  · intro vig
    exact chain'_map_flatMap_sorted (List.sorted_insertionSort floatLe _)
      (fun k e he => focal_of_mem_emitVigApertures he)
  · intro focal aps
    exact chain'_map_flatMap_sorted (List.sorted_insertionSort floatLe _)
      (fun k e he => aperture_of_mem_emitVigDistances he)

/-! ### C3 — `load_pgm`

The header is recognised in the source by the anchored regex

`(^P5\s(?:\s*#.*[\r\n])*(\d+)\s(?:\s*#.*[\r\n])*(\d+)\s(?:\s*#.*[\r\n])*(\d+)\s(?:\s*#.*[\r\n]\s)*)`

over the file's bytes. The deterministic parser below accepts the same
inputs: each quantifier here is forced (`\d`, `\s` and `#` are pairwise
disjoint), except that a comment's `.*` body is committed up to its
newline; a comment containing a bare carriage return directly followed by
header digits, which Python's backtracking could reinterpret and which no
raster-producing tool emits, is the one shape not modelled. The trailing
comment groups after the max value only extend the matched header (the
sample-data offset), which the claim does not concern. -/

/-- One comment group `\s*#.*[\r\n]` of the header regex: optional
whitespace, `#`, the comment body (no newline), and a `\r`/`\n` terminator;
`none` when the input does not start with such a group. -/
def dropCommentGroup (s : List Char) : Option (List Char) :=
  match s.dropWhile isPySpace with
  | '#' :: u =>
    let body := u.takeWhile (fun c => c ≠ '\n')
    match u.drop body.length with
    | '\n' :: v => some v
    | _ => if body.getLast? = some '\r' then some [] else none
  | _ => none

/-- Iterated comment groups `(?:\s*#.*[\r\n])*` (fuelled; each group consumes
at least its `#`, so the input length is enough fuel). -/
def skipCommentGroups : ℕ → List Char → List Char
  | 0, s => s
  | fuel + 1, s =>
    match dropCommentGroup s with
    | some rest => skipCommentGroups fuel rest
    | none => s

/-- The parsed `(width, height, maxval)` of a NetPGM header, or `none` when
the bytes do not match the header regex. -/
def parsePgmHeader (buf : List Char) : Option (ℕ × ℕ × ℕ) :=
  match buf with
  | 'P' :: '5' :: c :: r0 =>
    if isPySpace c then
      let r1 := skipCommentGroups r0.length r0
      let (w, wn, r2) := readDigits r1 0 0
      if wn = 0 then none else
      match r2 with
      | c2 :: r3 =>
        if isPySpace c2 then
          let r4 := skipCommentGroups r3.length r3
          let (h, hn, r5) := readDigits r4 0 0
          if hn = 0 then none else
          match r5 with
          | c3 :: r6 =>
            if isPySpace c3 then
              let r7 := skipCommentGroups r6.length r6
              let (m, mn, r8) := readDigits r7 0 0
              if mn = 0 then none else
              match r8 with
              | c4 :: _ => if isPySpace c4 then some (w, h, m) else none
              | [] => none
            else none
          | [] => none
        else none
      | [] => none
    else none
  | _ => none

/-- The sample storage format `load_pgm` selects from the header max value. -/
inductive SampleFmt where
  | u8
  | u16be
  | f32be
  deriving DecidableEq, Repr

/-- The numpy dtype width chosen for each format (`uint8`, big-endian
`uint16`, big-endian `float32`). -/
def SampleFmt.bytesPerSample : SampleFmt → ℕ
  | .u8 => 1
  | .u16be => 2
  | .f32be => 4

/-- The exact header max value that yields each format. -/
def SampleFmt.headerMaxval : SampleFmt → ℕ
  | .u8 => 255
  | .u16be => 65535
  | .f32be => 4294967295

/-- Embedding of `load_pgm` (`lens_calibrate.py:953-994`) up to the choice of
the sample format: parse the header (a failed match raises
`ValueError("Not a NetPGM file")`), then pick `uint8` when `maxval == 255`,
`uint16` when `maxval == 65535`, big-endian `float32` when
`maxval == 4294967295`, and raise the same `ValueError` for any other max
value. (The subsequent `np.frombuffer` reshape carries no further
branching.) -/
def load_pgm (buf : List Char) : Except String (ℕ × ℕ × SampleFmt) :=
  match parsePgmHeader buf with
  | none => .error "ValueError: Not a NetPGM file"
  | some (w, h, m) =>
    if m = 255 then .ok (w, h, .u8)
    else if m = 65535 then .ok (w, h, .u16be)
    else if m = 4294967295 then .ok (w, h, .f32be)
    else .error "ValueError: Not a NetPGM file"

example : parsePgmHeader "P5\n# a comment\n2 3 255 ".data = some (2, 3, 255) := by decide
example : parsePgmHeader "P5  2 2 255 ".data = none := by decide
example : load_pgm "P5 2 2 65535 ".data = .ok (2, 2, .u16be) := by decide

/-- Evaluation of `load_pgm` once the header has parsed. -/
theorem load_pgm_on_header (buf : List Char) (w h m : ℕ)
    (hp : parsePgmHeader buf = some (w, h, m)) :
    load_pgm buf =
      (if m = 255 then .ok (w, h, .u8)
       else if m = 65535 then .ok (w, h, .u16be)
       else if m = 4294967295 then .ok (w, h, .f32be)
       else .error "ValueError: Not a NetPGM file") := by
  unfold load_pgm
  rw [hp]

/-- Evaluation of `load_pgm` when the header does not parse. -/
theorem load_pgm_none (buf : List Char) (hp : parsePgmHeader buf = none) :
    load_pgm buf = .error "ValueError: Not a NetPGM file" := by
  unfold load_pgm
  rw [hp]

/-- C3 counterexample: a well-formed header whose max value is 100 — which
is at most 255, so the claim requires 1-byte samples — is rejected by
`load_pgm` with the `ValueError`, because the code compares the max value
for equality with 255, not at most 255. -/
theorem load_pgm_maxval_100_rejected :
    parsePgmHeader "P5 2 2 100 ".data = some (2, 2, 100) ∧
    (100 : ℕ) ≤ 255 ∧
    load_pgm "P5 2 2 100 ".data = .error "ValueError: Not a NetPGM file" :=
  ⟨by decide, by decide, by decide⟩

/-- C3 amended: `load_pgm` decodes samples as 1 byte exactly when the header
max value equals 255, 2 bytes (big-endian) exactly when it equals 65535, and
4-byte big-endian floats exactly when it equals 4294967295; every other max
value, and every header that does not match the magic/width/height/max-value
format (`#` comment lines allowed between fields), raises the format
`ValueError` — together with sample evaluations of all four outcomes. -/
theorem load_pgm_maxval_dispatch :
    (∀ buf : List Char, ∀ w h : ℕ, ∀ fmt : SampleFmt,
      load_pgm buf = .ok (w, h, fmt) ↔ parsePgmHeader buf = some (w, h, fmt.headerMaxval)) ∧
    (∀ buf : List Char,
      load_pgm buf = .error "ValueError: Not a NetPGM file" ↔
        (parsePgmHeader buf = none ∨
          ∃ w h m, parsePgmHeader buf = some (w, h, m) ∧
            m ≠ 255 ∧ m ≠ 65535 ∧ m ≠ 4294967295)) ∧
    SampleFmt.u8.bytesPerSample = 1 ∧ SampleFmt.u16be.bytesPerSample = 2 ∧
    SampleFmt.f32be.bytesPerSample = 4 ∧
    load_pgm "P5 2 2 255 ".data = .ok (2, 2, .u8) ∧
    load_pgm "P5 2 2 65535 ".data = .ok (2, 2, .u16be) ∧
    load_pgm "P5 2 2 4294967295 ".data = .ok (2, 2, .f32be) ∧
    load_pgm "Not a pgm".data = .error "ValueError: Not a NetPGM file" := by
  refine ⟨?_, ?_, rfl, rfl, rfl, by decide, by decide, by decide, by decide⟩
  · intro buf w h fmt
    constructor
    · intro hok
      cases hp : parsePgmHeader buf with
      | none =>
        rw [load_pgm_none buf hp] at hok
        exact Except.noConfusion hok
      | some whm =>
        obtain ⟨w0, h0, m⟩ := whm
        rw [load_pgm_on_header buf w0 h0 m hp] at hok
        split at hok
        · rename_i hm
          simp only [Except.ok.injEq, Prod.mk.injEq] at hok
          obtain ⟨rfl, rfl, rfl⟩ := hok
          subst hm
          rfl
        · split at hok
          · rename_i hm
            simp only [Except.ok.injEq, Prod.mk.injEq] at hok
            obtain ⟨rfl, rfl, rfl⟩ := hok
            subst hm
            rfl
          · split at hok
            · rename_i hm
              simp only [Except.ok.injEq, Prod.mk.injEq] at hok
              obtain ⟨rfl, rfl, rfl⟩ := hok
              subst hm
              rfl
            · exact Except.noConfusion hok
    · intro hp
      cases fmt with
      | u8 => rw [load_pgm_on_header buf w h 255 hp]; rfl
      | u16be => rw [load_pgm_on_header buf w h 65535 hp]; rfl
      | f32be => rw [load_pgm_on_header buf w h 4294967295 hp]; rfl
  · intro buf
    constructor
    · intro herr
      cases hp : parsePgmHeader buf with
      | none => exact Or.inl rfl
      | some whm =>
        obtain ⟨w0, h0, m⟩ := whm
        rw [load_pgm_on_header buf w0 h0 m hp] at herr
        split at herr
        · exact Except.noConfusion herr
        · split at herr
          · exact Except.noConfusion herr
          · split at herr
            · exact Except.noConfusion herr
            · rename_i h1 h2 h3
              exact Or.inr ⟨w0, h0, m, rfl, h1, h2, h3⟩
    · intro hp
      rcases hp with hp | ⟨w0, h0, m, hp, h1, h2, h3⟩
      · exact load_pgm_none buf hp
      · rw [load_pgm_on_header buf w0 h0 m hp, if_neg h1, if_neg h2, if_neg h3]

/-! ### C4 — lens-model resolution in `image_read_exif` -/

/-- The metadata fields `image_read_exif` consults for the lens model; a
field is `some v` when the EXIF tag is present, with `v` the (human) value
read from it: `Exif.Photo.LensModel`, `Exif.NikonLd3.LensIDNumber`,
`Exif.Panasonic.LensType`, `Exif.Sony1.LensID`, `Exif.Minolta.LensID`,
`Exif.OlympusEq.LensType`. -/
structure ExifLensTags where
  photoLensModel : Option String
  nikonLensID : Option String
  panasonicLensType : Option String
  sonyLensID : Option String
  minoltaLensID : Option String
  olympusLensType : Option String
  deriving DecidableEq, Repr

/-- Embedding of the lens-model resolution of `image_read_exif`
(`lens_calibrate.py:391-432`): when `Exif.Photo.LensModel` is present its
value is used; otherwise a sequence of independent `if has_exif_tag(...)`
statements each overwrite `lens_model` — Nikon, then Panasonic, then Sony,
then Minolta, then Olympus — and `'Standard'` is used if the variable is
still `None` at the end. -/
def image_read_exif_lens_model (d : ExifLensTags) : String :=
  match d.photoLensModel with
  | some v => v
  | none =>
    let m : Option String := none
    let m := if d.nikonLensID.isSome then d.nikonLensID else m
    let m := if d.panasonicLensType.isSome then d.panasonicLensType else m
    let m := if d.sonyLensID.isSome then d.sonyLensID else m
    let m := if d.minoltaLensID.isSome then d.minoltaLensID else m
    let m := if d.olympusLensType.isSome then d.olympusLensType else m
    m.getD "Standard"

/-- The resolution the claim describes, stated from the spec's words: the
highest-priority present field in the fixed order Nikon, Panasonic, Sony,
Minolta, Olympus determines the result (first present wins). -/
def claimed_lens_model (d : ExifLensTags) : String :=
  match d.photoLensModel with
  | some v => v
  | none =>
    ((((d.nikonLensID.or d.panasonicLensType).or d.sonyLensID).or
        d.minoltaLensID).or d.olympusLensType).getD "Standard"

/-- An image whose metadata carries both a Nikon and a Panasonic lens field
(and no primary field). -/
def exifCrossTags : ExifLensTags :=
  ⟨none, some "Nikon 50mm", some "Panasonic 25mm", none, none, none⟩

/-- C4 counterexample: with the primary field absent and both the Nikon and
the Panasonic manufacturer fields present, resolving by the claimed priority
order would yield the Nikon value, but the code's overwrite chain yields the
Panasonic value — the last present field wins, not the first. -/
theorem image_read_exif_priority_cex :
    image_read_exif_lens_model exifCrossTags = "Panasonic 25mm" ∧
    claimed_lens_model exifCrossTags = "Nikon 50mm" ∧
    image_read_exif_lens_model exifCrossTags ≠ claimed_lens_model exifCrossTags :=
  ⟨by decide, by decide, by decide⟩

/-- C4 amended: the primary standard field, when present, determines the
lens model; otherwise the manufacturer-specific fields are consulted with
the LAST present field in the written order Nikon, Panasonic, Sony, Minolta,
Olympus winning — an effective priority of Olympus over Minolta over Sony
over Panasonic over Nikon — and the literal `"Standard"` results when none
of them is present. -/
theorem image_read_exif_lens_model_resolution :
    (∀ d : ExifLensTags, ∀ v : String, d.photoLensModel = some v →
      image_read_exif_lens_model d = v) ∧
    (∀ d : ExifLensTags, d.photoLensModel = none →
      image_read_exif_lens_model d =
        ((((d.olympusLensType.or d.minoltaLensID).or d.sonyLensID).or
            d.panasonicLensType).or d.nikonLensID).getD "Standard") ∧
    image_read_exif_lens_model ⟨none, none, none, none, none, none⟩ = "Standard" := by
  refine ⟨?_, ?_, by decide⟩
  · intro d v h
    obtain ⟨ph, n, p, s, m, o⟩ := d
    cases h
    rfl
  · intro d h
    obtain ⟨ph, n, p, s, m, o⟩ := d
    cases h
    cases o <;> cases m <;> cases s <;> cases p <;> cases n <;> rfl

theorem image_read_exif_lens_model_resolution_witness :
    image_read_exif_lens_model ⟨some "FE 16-35mm F2.8 GM", none, none, none, none, none⟩ =
      "FE 16-35mm F2.8 GM" ∧
    image_read_exif_lens_model exifCrossTags =
      ((((exifCrossTags.olympusLensType.or exifCrossTags.minoltaLensID).or
          exifCrossTags.sonyLensID).or exifCrossTags.panasonicLensType).or
        exifCrossTags.nikonLensID).getD "Standard" :=
  ⟨image_read_exif_lens_model_resolution.1 _ "FE 16-35mm F2.8 GM" rfl,
   image_read_exif_lens_model_resolution.2.1 exifCrossTags rfl⟩

/-! ### C5 / C6 — the TCA extractor `tca_correct` -/

/-- Expect one given character. -/
def expectChar (c : Char) : List Char → Option (List Char)
  | x :: xs => if x = c then some xs else none
  | [] => none

/-- Greedily read one or more characters of a class, returning the matched
run and the rest; `none` when the first character is not in the class. -/
def takeClass1 (p : Char → Bool) : List Char → Option (List Char × List Char)
  | c :: cs => if p c then some (c :: cs.takeWhile p, cs.dropWhile p) else none
  | [] => none

/-- The regex class `[.0]`. -/
def isDotZero (c : Char) : Bool := c = '.' || c = '0'

/-- The regex class `[-.0-9]`. -/
def isNumClass (c : Char) : Bool := c = '-' || c = '.' || isDigitChar c

/-- Parse `[.0]+:(g1):[.0]+:(g2)` — the per-channel tail of the regex of
`tca_correct` — returning the two captured groups and the rest. -/
def tca_channel_groups (s : List Char) : Option ((List Char × List Char) × List Char) :=
  (takeClass1 isDotZero s).bind (fun x1 =>
    (expectChar ':' x1.2).bind (fun r2 =>
      (takeClass1 isNumClass r2).bind (fun xg1 =>
        (expectChar ':' xg1.2).bind (fun r4 =>
          (takeClass1 isDotZero r4).bind (fun x2 =>
            (expectChar ':' x2.2).bind (fun r6 =>
              (takeClass1 isNumClass r6).map (fun xg2 =>
                ((xg1.1, xg2.1), xg2.2))))))))

/-- Embedding of the `re.match` of `tca_correct` (`lens_calibrate.py:915`):

`-r [.0]+:(?P<br>[-.0-9]+):[.0]+:(?P<vr>[-.0-9]+) -b [.0]+:(?P<bb>[-.0-9]+):[.0]+:(?P<vb>[-.0-9]+)`

as a prefix match on the tool output, returning the four named groups
`(br, vr, bb, vb)`. Every character class excludes the delimiter (`:` or
space) that follows it, so greedy matching with backtracking is equivalent
to this deterministic maximal-munch parse. -/
def tca_output_groups (out : List Char) : Option (String × String × String × String) :=
  match out with
  | '-' :: 'r' :: ' ' :: r0 =>
    (tca_channel_groups r0).bind (fun rg =>
      match rg.2 with
      | ' ' :: '-' :: 'b' :: ' ' :: r8 =>
        (tca_channel_groups r8).map (fun bg =>
          (⟨rg.1.1⟩, ⟨rg.1.2⟩, ⟨bg.1.1⟩, ⟨bg.1.2⟩))
      | _ => none)
  | _ => none

/-- One `.tca` artifact section body: the keys `tca_correct` writes under
the lens-model section. -/
structure TcaArtifact where
  focal_length : String
  complex_tca : Bool
  tca : String
  br : String
  vr : String
  bb : String
  vb : String
  deriving DecidableEq, Repr

/-- The pure core of `tca_correct` (`lens_calibrate.py:892-934`) in the arm
where the `.tca` output file does not yet exist and the external tool ran:
match the regex against the captured output; on failure print
`"Could not find tca correction data"` and return `None` without writing an
artifact; on success write the artifact. Returns the artifact written (if
any) and the log lines printed. -/
def tca_correct_core (focal_length : String) (complex_tca : Bool)
    (toolOutput : List Char) : Option TcaArtifact × List String :=
  match tca_output_groups toolOutput with
  | none => (none, ["Could not find tca correction data"])
  | some (br, vr, bb, vb) =>
    (some ⟨focal_length, complex_tca, ⟨toolOutput⟩, br, vr, bb, vb⟩, [])

/-- The result of `create_tca_correction` (`lens_calibrate.py:1223-1241`):
it calls `tca_correct`, ignores its return value, and returns `True`
unconditionally; `run_tca` reports a job "OK" whenever its future yields a
true value. -/
def create_tca_correction_core (focal_length : String) (complex_tca : Bool)
    (toolOutput : List Char) : (Option TcaArtifact × List String) × Bool :=
  (tca_correct_core focal_length complex_tca toolOutput, true)

/-- The TCA tool output line of the claim. -/
def tcaExampleLine : String := "-r 0.0:-0.002:0.0:0.001 -b 0.0:0.003:0.0:-0.001"

/-- C5: on the output line
`-r 0.0:-0.002:0.0:0.001 -b 0.0:0.003:0.0:-0.001` the extractor captures
exactly br=-0.002, vr=0.001, bb=0.003, vb=-0.001 and records those four
values (and the raw line) in the `.tca` artifact; the four captured strings
parse to the claimed float values. -/
theorem tca_correct_extracts_example :
    tca_output_groups tcaExampleLine.data =
      some ("-0.002", "0.001", "0.003", "-0.001") ∧
    (tca_correct_core "50.0" false tcaExampleLine.data).1 =
      some ⟨"50.0", false, tcaExampleLine, "-0.002", "0.001", "0.003", "-0.001"⟩ ∧
    pyFloat "-0.002".data = some (.finite ⟨-2, 3⟩) ∧
    pyFloat "0.001".data = some (.finite ⟨1, 3⟩) ∧
    pyFloat "0.003".data = some (.finite ⟨3, 3⟩) ∧
    pyFloat "-0.001".data = some (.finite ⟨-1, 3⟩) :=
  ⟨by decide, by decide, by decide, by decide, by decide, by decide⟩

/-- C6 counterexample: on tool output that does not match the parse shape,
the extractor prints the message and returns `None` without writing a
`.tca` artifact — but `create_tca_correction` still returns `True`, so the
job is marked successful, not failed as claimed. -/
theorem tca_parse_failure_job_still_ok :
    tca_output_groups "garbage".data = none ∧
    (create_tca_correction_core "50.0" false "garbage".data).1.1 = none ∧
    (create_tca_correction_core "50.0" false "garbage".data).1.2 =
      ["Could not find tca correction data"] ∧
    (create_tca_correction_core "50.0" false "garbage".data).2 = true :=
  ⟨by decide, by decide, by decide, by decide⟩

/-- C6 amended: whenever the captured TCA tool output does not match the
fixed parse shape, `tca_correct` reports "Could not find tca correction
data" and returns `None`, abandoning the artifact for that image only — but
the failure is not propagated: `create_tca_correction` ignores the result
and returns `True`, so the job is reported as succeeding. -/
theorem tca_parse_failure_behavior (focal : String) (ct : Bool) (out : List Char)
    (h : tca_output_groups out = none) :
    create_tca_correction_core focal ct out =
      ((none, ["Could not find tca correction data"]), true) := by
  unfold create_tca_correction_core tca_correct_core
  rw [h]

theorem tca_parse_failure_behavior_witness :
    create_tca_correction_core "50.0" false "garbage".data =
      ((none, ["Could not find tca correction data"]), true) :=
  tca_parse_failure_behavior "50.0" false "garbage".data (by decide)

/-! ### C7 — radial binning in `calculate_vignetting`

Radii and intensities are abstract rational samples here; the claim
quantifies over "any set of (radius, intensity) samples with every radius in
[0,1]", which is exactly the retained-sample set of the source (radii are
`hypot`-distances divided by the half diagonal, hence nonnegative, and the
loop keeps only `radius <= maximal_radius`). -/

/-- Python's `round()`: round half to even (banker's rounding), on exact
rationals; `int(round(x))` in the source is this integer. -/
def pyRound (q : ℚ) : ℤ :=
  if q - ⌊q⌋ < 1 / 2 then ⌊q⌋
  else if 1 / 2 < q - ⌊q⌋ then ⌊q⌋ + 1
  else if Even ⌊q⌋ then ⌊q⌋ else ⌊q⌋ + 1

/-- The bin index
`int(round(radius / maximal_radius * (number_of_bins - 1)))` with
`maximal_radius = 1` and `number_of_bins = 16` (`lens_calibrate.py:1047`). -/
def binIndex (radius : ℚ) : ℤ := pyRound (radius / 1 * 15)

/-- One iteration of the bin-filling loop
(`bins[bin_index].append(intensity)`). -/
def binStep (bins : List (List ℚ)) (p : ℚ × ℚ) : List (List ℚ) :=
  bins.set (binIndex p.1).toNat ((bins.getD (binIndex p.1).toNat []) ++ [p.2])

/-- Embedding of the bin-filling loop (`lens_calibrate.py:1039-1048`):
16 empty bins, then each retained (radius, intensity) sample is appended to
bin `binIndex radius`. (A negative Python index would wrap around; radii
are nonnegative, as the claim's hypothesis radius ∈ [0,1] guarantees.) -/
def assignBins (samples : List (ℚ × ℚ)) : List (List ℚ) :=
  samples.foldl binStep (List.replicate 16 [])

/-- `np.median` of a list of rationals: the middle element of the sorted
list, or the mean of the two middle elements for even length. (`np.median`
of an empty array is NaN; the empty case maps to 0 and is not used.) -/
def npMedian (l : List ℚ) : ℚ :=
  let s := List.insertionSort (fun a b : ℚ => a ≤ b) l
  if l.length = 0 then 0
  else if l.length % 2 = 1 then s.getD (l.length / 2) 0
  else (s.getD (l.length / 2 - 1) 0 + s.getD (l.length / 2) 0) / 2

/-- The binned radii
`[i / (number_of_bins - 1) * maximal_radius for i in range(number_of_bins)]`
(`lens_calibrate.py:1049`). -/
def binnedRadii : List ℚ := (List.range 16).map (fun i => (i : ℚ) / 15 * 1)

/-- The binned intensities `[np.median(bin) for bin in bins]`
(`lens_calibrate.py:1050`). -/
def binnedIntensities (samples : List (ℚ × ℚ)) : List ℚ :=
  (assignBins samples).map npMedian

example : npMedian [3, 1, 2] = 2 := by decide
example : npMedian [4, 1, 3, 2] = 5 / 2 := by
  norm_num [npMedian, List.insertionSort, List.orderedInsert]

theorem pyRound_nonneg (q : ℚ) (h : 0 ≤ q) : 0 ≤ pyRound q := by
  have hfl : 0 ≤ ⌊q⌋ := Int.floor_nonneg.mpr h
  unfold pyRound
  split
  · exact hfl
  · split
    · omega
    · split
      · exact hfl
      · omega

theorem pyRound_le (q : ℚ) (n : ℤ) (h : q ≤ (n : ℚ)) : pyRound q ≤ n := by
  have hfl : ⌊q⌋ ≤ n := by
    have h2 := Int.floor_le_floor h
    rwa [Int.floor_intCast] at h2
  unfold pyRound
  split
  · exact hfl
  · rename_i h1
    push_neg at h1
    have hne : ⌊q⌋ ≠ n := by
      intro he
      have hq : q - (⌊q⌋ : ℚ) ≤ 0 := by
        rw [he]
        linarith
      linarith
    have hlt : ⌊q⌋ + 1 ≤ n := by omega
    split
    · exact hlt
    · split
      · exact hfl
      · exact hlt

theorem binIndex_nonneg (r : ℚ) (h : 0 ≤ r) : 0 ≤ binIndex r := by
  unfold binIndex
  apply pyRound_nonneg
  positivity

theorem binIndex_le_fifteen (r : ℚ) (h : r ≤ 1) : binIndex r ≤ 15 := by
  unfold binIndex
  apply pyRound_le
  push_cast
  linarith

/-- Folding the bin-filling step preserves the number of bins. -/
theorem bins_foldl_length :
    ∀ (samples : List (ℚ × ℚ)) (acc : List (List ℚ)),
      (samples.foldl binStep acc).length = acc.length
  | [], _ => rfl
  | p :: ps, acc => by
    rw [List.foldl_cons, bins_foldl_length ps (binStep acc p)]
    unfold binStep
    exact List.length_set ..

/-- Setting a bin to itself plus one element raises the count sum by one. -/
theorem sum_map_length_set :
    ∀ (bins : List (List ℚ)) (i : ℕ) (v : List ℚ), i < bins.length →
      (((bins.set i v).map List.length).sum + (bins.getD i []).length
        = (bins.map List.length).sum + v.length)
  | [], i, v, h => absurd h (by simp)
  | b :: bs, 0, v, _ => by
    simp only [List.set_cons_zero, List.map_cons, List.sum_cons, List.getD_cons_zero]
    omega
  | b :: bs, i + 1, v, h => by
    simp only [List.set_cons_succ, List.map_cons, List.sum_cons, List.getD_cons_succ]
    have ih := sum_map_length_set bs i v (by simpa using h)
    omega

/-- Folding the bin-filling step adds one to the count sum per sample, as
long as every sample's bin index is in range. -/
theorem bins_foldl_sum :
    ∀ (samples : List (ℚ × ℚ)) (acc : List (List ℚ)),
      (∀ p ∈ samples, (binIndex p.1).toNat < acc.length) →
      ((samples.foldl binStep acc).map List.length).sum
        = (acc.map List.length).sum + samples.length
  | [], _, _ => by simp
  | p :: ps, acc, h => by
    rw [List.foldl_cons]
    rw [bins_foldl_sum ps (binStep acc p) (fun q hq => by
      unfold binStep
      rw [List.length_set]
      exact h q (List.mem_cons_of_mem p hq))]
    have hstep := sum_map_length_set acc (binIndex p.1).toNat
      ((acc.getD (binIndex p.1).toNat []) ++ [p.2]) (h p (List.mem_cons_self p ps))
    rw [List.length_append, List.length_cons, List.length_nil] at hstep
    unfold binStep
    rw [List.length_cons]
    omega

/-- The bins after folding: the starting bin contents followed by the
intensities of the samples whose (truncated) bin index is that bin, in
input order. -/
theorem bins_foldl_getD :
    ∀ (samples : List (ℚ × ℚ)) (acc : List (List ℚ)),
      (∀ p ∈ samples, (binIndex p.1).toNat < acc.length) → ∀ i : ℕ,
      (samples.foldl binStep acc).getD i []
        = acc.getD i [] ++
          (samples.filter (fun p => (binIndex p.1).toNat = i)).map Prod.snd
  | [], _, _, i => by simp
  | p :: ps, acc, h, i => by
    rw [List.foldl_cons]
    rw [bins_foldl_getD ps (binStep acc p) (fun q hq => by
      unfold binStep
      rw [List.length_set]
      exact h q (List.mem_cons_of_mem p hq)) i]
    by_cases hip : (binIndex p.1).toNat = i
    · rw [List.filter_cons_of_pos (by simpa using hip), List.map_cons]
      unfold binStep
      rw [hip]
      rw [List.getD_eq_getElem?_getD,
        List.getElem?_set_self (by rw [← hip]; exact h p (List.mem_cons_self p ps)),
        Option.getD_some]
      simp
    · rw [List.filter_cons_of_neg (by simpa using hip)]
      unfold binStep
      rw [List.getD_eq_getElem?_getD, List.getElem?_set_ne hip, ← List.getD_eq_getElem?_getD]

/-- C7: for samples whose radii all lie in [0,1], the binning loop produces
exactly 16 bins; the bin member counts sum to the number of samples; bin
`i` holds exactly the intensities of the samples with
`round(radius / 1 * 15) = i`, in input order; the 16 output radii are
evenly spaced at `i/15`; and the output intensities are the per-bin
medians. -/
theorem calculate_vignetting_binning (samples : List (ℚ × ℚ))
    (hr : ∀ p ∈ samples, 0 ≤ p.1 ∧ p.1 ≤ 1) :
    (assignBins samples).length = 16 ∧
    ((assignBins samples).map List.length).sum = samples.length ∧
    (∀ i : ℕ, (assignBins samples).getD i []
      = (samples.filter (fun p => binIndex p.1 = (i : ℤ))).map Prod.snd) ∧
    binnedRadii = (List.range 16).map (fun i => (i : ℚ) / 15) ∧
    binnedIntensities samples = (assignBins samples).map npMedian := by
  have hlt : ∀ p ∈ samples, (binIndex p.1).toNat < (List.replicate 16 ([] : List ℚ)).length := by
    intro p hp
    have h0 := binIndex_nonneg p.1 (hr p hp).1
    have h15 := binIndex_le_fifteen p.1 (hr p hp).2
    rw [List.length_replicate]
    omega
  refine ⟨?_, ?_, ?_, ?_, rfl⟩
  · unfold assignBins
    rw [bins_foldl_length]
    exact List.length_replicate 16 []
  · unfold assignBins
    rw [bins_foldl_sum samples _ hlt]
    simp
  · intro i
    unfold assignBins
    rw [bins_foldl_getD samples _ hlt i]
    have hrep : (List.replicate 16 ([] : List ℚ)).getD i [] = [] := by
      rcases Nat.lt_or_ge i 16 with h | h
      · rw [List.getD_eq_getElem?_getD, List.getElem?_replicate_of_lt h]
        rfl
      · rw [List.getD_eq_getElem?_getD, List.getElem?_eq_none (by simpa using h)]
        rfl
    rw [hrep, List.nil_append]
    refine congrArg (List.map Prod.snd) (List.filter_congr ?_)
    intro p hp
    have h0 := binIndex_nonneg p.1 (hr p hp).1
    simp only [decide_eq_decide]
    omega
  · unfold binnedRadii
    simp [mul_one]

/-- Concrete samples for the binning witness (radii 0, 1, 1/2, 1/2). -/
def vigSamplesEx : List (ℚ × ℚ) := [(0, 5), (1, 7), (1 / 2, 3), (1 / 2, 4)]

theorem calculate_vignetting_binning_witness :
    (assignBins vigSamplesEx).length = 16 ∧
    ((assignBins vigSamplesEx).map List.length).sum = vigSamplesEx.length := by
  have h := calculate_vignetting_binning vigSamplesEx (by
    intro p hp
    fin_cases hp <;> norm_num)
  exact ⟨h.1, h.2.1⟩

/-! ### C9 — idempotent re-runs (skip-if-exists)

The job bodies are embedded as state transformers over an explicit file
system, recording which external tools they invoke; file contents on the
generation paths are placeholders (the numeric pipeline is embedded
separately above), which is immaterial to the claim: on the skip paths
proved about, the file system is returned unchanged, so every existing
artifact stays byte-identical whatever its bytes are. -/

/-- The external tools the embedded job bodies invoke: `darktable-cli`,
ImageMagick's `convert`, `gnuplot` (via `plot_pdf`), and `exiftool` (the
crop-factor read inside `image_read_exif`). -/
inductive ExtTool where
  | darktable
  | magick
  | gnuplot
  | exiftool
  deriving DecidableEq, Repr

/-- A file system: the files present, as (path, contents) pairs. -/
abbrev FS : Type := List (String × String)

/-- `os.path.exists`. -/
def FS.hasFile (fs : FS) (p : String) : Bool := (List.lookup p fs).isSome

/-- Creating or replacing a file. -/
def FS.write (fs : FS) (p c : String) : FS := (p, c) :: fs

/-- `os.path.join` for the relative paths this script builds. -/
def pathJoin (a b : String) : String := a ++ "/" ++ b

/-- `os.path.splitext(p)[0]`: cut at the last dot of the final path
component, except when every character of the component before that dot is
itself a dot (leading dots do not start an extension). -/
def splitextStem (p : String) : String :=
  let cs := p.data
  let comp := (cs.reverse.takeWhile (fun c => c ≠ '/')).reverse
  let dir := cs.take (cs.length - comp.length)
  let afterDots := comp.dropWhile (fun c => c = '.')
  if afterDots.any (fun c => c = '.') then
    ⟨dir ++ ((comp.reverse.dropWhile (fun c => c ≠ '.')).reverse).dropLast⟩
  else p

example : splitextStem "vignetting/IMG_1.ORF" = "vignetting/IMG_1" := by decide
example : splitextStem ".bashrc" = ".bashrc" := by decide
example : splitextStem "a/b.c.d" = "a/b.c" := by decide

/-- `image_read_exif` (`lens_calibrate.py:488-498`) invokes the external
metadata tool `exiftool` for the crop factor unconditionally, on every
call, besides its in-process pyexiv2 reads. -/
def image_read_exif_calls : List ExtTool := [ExtTool.exiftool]

/-- Effect skeleton of `convert_raw_for_distortion`
(`lens_calibrate.py:578-616`): when the output file exists nothing runs and
nothing is written; otherwise `darktable-cli` is invoked and the output is
produced. -/
def convert_raw_for_distortion_fs (fs : FS) (output_file : String) : FS × List ExtTool :=
  if FS.hasFile fs output_file then (fs, [])
  else (FS.write fs output_file "tiff-image", [ExtTool.darktable])

/-- Effect skeleton of `convert_raw_for_vignetting`
(`lens_calibrate.py:652-685`): same skip-if-exists shape. -/
def convert_raw_for_vignetting_fs (fs : FS) (output_file : String) : FS × List ExtTool :=
  if FS.hasFile fs output_file then (fs, [])
  else (FS.write fs output_file "ppm-raster", [ExtTool.darktable])

/-- Effect skeleton of `convert_ppm_for_vignetting`
(`lens_calibrate.py:687-710`): the output is the input with a `.pgm`
extension; skip if it exists, else invoke `convert`. Returns the output
path as the source does. -/
def convert_ppm_for_vignetting_fs (fs : FS) (input_file : String) :
    String × FS × List ExtTool :=
  let output_file := splitextStem input_file ++ ".pgm"
  if FS.hasFile fs output_file then (output_file, fs, [])
  else (output_file, FS.write fs output_file "pgm-raster", [ExtTool.magick])

/-- Effect skeleton of `calculate_vignetting`
(`lens_calibrate.py:1002-1095`): if the `.vig` record exists, return at
once (`lens_calibrate.py:1013-1014`); otherwise analyse and write the point
cloud, the binned averages, the `.vig` record and the gnuplot script, and
invoke `gnuplot` through `plot_pdf`. -/
def calculate_vignetting_fs (fs : FS) (input_file : String) : FS × List ExtTool :=
  let basename := splitextStem input_file
  if FS.hasFile fs (basename ++ ".vig") then (fs, [])
  else
    (FS.write (FS.write (FS.write (FS.write fs
        (basename ++ ".all_points.dat") "points")
        (basename ++ ".bins.dat") "bins")
        (basename ++ ".vig") "vig-record")
        (basename ++ ".gp") "gnuplot-script",
     [ExtTool.gnuplot])

/-- Effect skeleton of `create_vignetting_correction`
(`lens_calibrate.py:1296-1323`): read EXIF (which invokes exiftool), then
RAW→ppm, ppm→pgm, the analysis, and the preview conversion, and return
`True`. -/
def create_vignetting_correction_fs (fs : FS) (export_path filename : String) :
    FS × List ExtTool × Bool :=
  let stem := splitextStem filename
  let output_file := pathJoin export_path (stem ++ ".ppm")
  let preview_file := pathJoin export_path (stem ++ ".jpg")
  let (fs1, c1) := convert_raw_for_vignetting_fs fs output_file
  let (pgm_file, fs2, c2) := convert_ppm_for_vignetting_fs fs1 output_file
  let (fs3, c3) := calculate_vignetting_fs fs2 pgm_file
  let (fs4, c4) := convert_raw_for_vignetting_fs fs3 preview_file
  (fs4, image_read_exif_calls ++ c1 ++ c2 ++ c3 ++ c4, true)

/-- Effect skeleton of `create_distortion_correction`
(`lens_calibrate.py:1117-1127`): it only converts (no EXIF read happens in
this job body) and returns `True`. -/
def create_distortion_correction_fs (fs : FS) (path filename : String) :
    FS × List ExtTool × Bool :=
  let output_file := pathJoin (pathJoin path "exported") (splitextStem filename ++ ".tif")
  let (fs1, c1) := convert_raw_for_distortion_fs fs output_file
  (fs1, c1, true)

/-- A directory tree in which every artifact of the vignetting job for
`IMG_1.ORF` already exists. -/
def vigRerunFS : FS :=
  [("vignetting/exported/IMG_1.ppm", "ppm-raster"),
   ("vignetting/exported/IMG_1.pgm", "pgm-raster"),
   ("vignetting/exported/IMG_1.vig", "vig-record"),
   ("vignetting/exported/IMG_1.jpg", "ppm-raster")]

/-- C9 counterexample: even with every artifact of the job present, a
re-run of the vignetting job performs an external tool invocation — the
unconditional `exiftool` call inside `image_read_exif` — so "zero external
tool invocations for that job" is false (the artifacts do stay untouched
and the job returns True). -/
theorem vignetting_rerun_invokes_exiftool :
    create_vignetting_correction_fs vigRerunFS "vignetting/exported" "IMG_1.ORF"
      = (vigRerunFS, [ExtTool.exiftool], true) ∧
    [ExtTool.exiftool] ≠ ([] : List ExtTool) :=
  ⟨by decide, by decide⟩

/-- C9 amended: a job whose output artifacts already exist re-does no
conversion or analysis work and leaves the file system — hence every
existing artifact's bytes — unchanged: a distortion conversion job whose
converted image exists performs zero external tool invocations, and a
vignetting job whose four artifacts exist performs exactly the one
unconditional metadata-tool (`exiftool`) invocation of `image_read_exif`
and nothing else, returning success. -/
theorem rerun_skips_existing_artifacts :
    (∀ fs : FS, ∀ output_file : String, FS.hasFile fs output_file = true →
      convert_raw_for_distortion_fs fs output_file = (fs, [])) ∧
    (∀ fs : FS, ∀ export_path filename : String,
      FS.hasFile fs (pathJoin export_path (splitextStem filename ++ ".ppm")) = true →
      FS.hasFile fs (splitextStem (pathJoin export_path (splitextStem filename ++ ".ppm"))
        ++ ".pgm") = true →
      FS.hasFile fs (splitextStem (splitextStem (pathJoin export_path
        (splitextStem filename ++ ".ppm")) ++ ".pgm") ++ ".vig") = true →
      FS.hasFile fs (pathJoin export_path (splitextStem filename ++ ".jpg")) = true →
      create_vignetting_correction_fs fs export_path filename
        = (fs, [ExtTool.exiftool], true)) := by
  constructor
  · intro fs output_file h
    unfold convert_raw_for_distortion_fs
    rw [h]
    rfl
  · intro fs export_path filename h1 h2 h3 h4
    unfold create_vignetting_correction_fs convert_raw_for_vignetting_fs
      convert_ppm_for_vignetting_fs calculate_vignetting_fs
    simp only [h1, h2, h3, h4, if_true]
    rfl

theorem rerun_skips_existing_artifacts_witness :
    convert_raw_for_distortion_fs [("distortion/exported/IMG_2.tif", "tiff-image")]
        "distortion/exported/IMG_2.tif"
      = ([("distortion/exported/IMG_2.tif", "tiff-image")], []) ∧
    create_vignetting_correction_fs vigRerunFS "vignetting/exported" "IMG_1.ORF"
      = (vigRerunFS, [ExtTool.exiftool], true) :=
  ⟨rerun_skips_existing_artifacts.1 _ _ (by decide),
   rerun_skips_existing_artifacts.2 vigRerunFS "vignetting/exported" "IMG_1.ORF"
     (by decide) (by decide) (by decide) (by decide)⟩

/-! ### C10 — distance assignment in `run_vignetting` -/

/-- `os.path.basename`: the final path component. -/
def pathBasename (p : String) : String :=
  ⟨(p.data.reverse.takeWhile (fun c => c ≠ '/')).reverse⟩

/-- ASCII upper-casing, as `str.upper()` applies to the extensions here. -/
def toUpperAscii (c : Char) : Char :=
  if 'a' ≤ c && c ≤ 'z' then Char.ofNat (c.toNat - 32) else c

/-- The raw-file extension list of `is_raw_file`
(`lens_calibrate.py:347-354`). -/
def raw_file_extensions : List String :=
  [".3FR", ".ARI", ".ARW", ".BAY", ".CRW", ".CR2", ".CAP", ".DCS",
   ".DCR", ".DNG", ".DRF", ".EIP", ".ERF", ".FFF", ".IIQ", ".K25",
   ".KDC", ".MEF", ".MOS", ".MRW", ".NEF", ".NRW", ".OBM", ".ORF",
   ".PEF", ".PTX", ".PXN", ".R3D", ".RAF", ".RAW", ".RWL", ".RW2",
   ".RWZ", ".SR2", ".SRF", ".SRW", ".X3F", ".JPG", ".JPEG", ".TIF",
   ".TIFF"]

/-- `is_raw_file` (`lens_calibrate.py:343-357`): the
`os.path.splitext` extension, upper-cased, must be in the list. -/
def is_raw_file (filename : String) : Bool :=
  let ext : String :=
    ⟨(filename.data.drop (splitextStem filename).data.length).map toUpperAscii⟩
  raw_file_extensions.contains ext

example : is_raw_file "IMG_1.orf" = true := by decide
example : is_raw_file "IMG_1.txt" = false := by decide

/-- The per-file decision of the `run_vignetting` walk loop
(`lens_calibrate.py:1345-1364`): the distance starts as `float("inf")`;
non-raw files are skipped; files under the export directory are skipped; a
file whose directory is not `vignetting` itself takes
`float(os.path.basename(path))` as its distance, and when that conversion
raises (`except: continue`) the file is silently skipped — no job is
submitted and nothing is reported. `some d` means a job is submitted with
distance `d`; `none` means no job. -/
def run_vignetting_file_distance (export_path path filename : String) : Option PyFloat :=
  if ¬ is_raw_file filename then none
  else if path = export_path then none
  else if path ≠ "vignetting" then
    match pyFloat (pathBasename path).data with
    | some d => some d
    | none => none
  else some .pinf

/-- C10: a raw file directly in the vignetting directory is assigned the
distance infinity; a raw file in a subdirectory is assigned the float value
of the subdirectory's basename; and when that basename does not parse as a
Python float the file is silently skipped (no job, no report) — with
concrete evaluations of the unparsable- and parsable-basename cases. -/
theorem run_vignetting_distance_rule :
    (∀ filename : String, is_raw_file filename = true →
      run_vignetting_file_distance "vignetting/exported" "vignetting" filename
        = some .pinf) ∧
    (∀ path filename : String, ∀ d : PyFloat, is_raw_file filename = true →
      path ≠ "vignetting/exported" → path ≠ "vignetting" →
      pyFloat (pathBasename path).data = some d →
      run_vignetting_file_distance "vignetting/exported" path filename = some d) ∧
    (∀ path filename : String, is_raw_file filename = true →
      path ≠ "vignetting/exported" → path ≠ "vignetting" →
      pyFloat (pathBasename path).data = none →
      run_vignetting_file_distance "vignetting/exported" path filename = none) ∧
    run_vignetting_file_distance "vignetting/exported" "vignetting/not_a_number"
      "IMG_1.ORF" = none ∧
    run_vignetting_file_distance "vignetting/exported" "vignetting/1.5" "IMG_1.ORF"
      = some (.finite ⟨15, 1⟩) := by
  refine ⟨?_, ?_, ?_, by decide, by decide⟩
  · intro filename h
    unfold run_vignetting_file_distance
    rw [h]
    rfl
  · intro path filename d h hne1 hne2 hparse
    unfold run_vignetting_file_distance
    rw [h, if_neg (by simp), if_neg hne1, if_pos hne2, hparse]
  · intro path filename h hne1 hne2 hparse
    unfold run_vignetting_file_distance
    rw [h, if_neg (by simp), if_neg hne1, if_pos hne2, hparse]

theorem run_vignetting_distance_rule_witness :
    run_vignetting_file_distance "vignetting/exported" "vignetting" "IMG_1.ORF"
      = some .pinf ∧
    run_vignetting_file_distance "vignetting/exported" "vignetting/5.0" "IMG_1.ORF"
      = some (.finite ⟨50, 1⟩) ∧
    run_vignetting_file_distance "vignetting/exported" "vignetting/close_ups"
      "IMG_1.ORF" = none :=
  ⟨run_vignetting_distance_rule.1 "IMG_1.ORF" (by decide),
   run_vignetting_distance_rule.2.1 "vignetting/5.0" "IMG_1.ORF" (.finite ⟨50, 1⟩)
     (by decide) (by decide) (by decide) (by decide),
   run_vignetting_distance_rule.2.2.1 "vignetting/close_ups" "IMG_1.ORF"
     (by decide) (by decide) (by decide) (by decide)⟩

end LensCalibrate
